import Mathlib

/-!
A shallow embedding of the execution core of RepletO
(`src/backend/execution/sandbox.py` and `src/backend/execution/jupyter_kernel.py`)
together with theorems settling the specification's claims about it.

Modelling conventions:
* Python strings are `List Char` where individual characters matter
  (Python `len` counts characters); messages are Lean `String`s.
* Behaviour the engine only observes (the child process, the Jupyter kernel's
  message channels, the wall clock) enters as explicit oracle values;
  filesystem primitives and channel teardown are modelled as succeeding.
* An exception escaping a function boundary is an explicit outcome
  constructor; `try`/`except` blocks become case analysis on the oracles.
* Case-insensitive regex matching is modelled as matching the lowercase
  pattern against the lowercased code (the deny-list patterns are ASCII).
-/

namespace RepletO

/-! ## Security Filter (`SecureSandbox._check_security`, sandbox.py 77-135) -/

/-- Python regex `\s` on ASCII text: the whitespace characters the deny-list
patterns can match. -/
def isPySpace (c : Char) : Bool :=
  c = ' ' || c = '\t' || c = '\n' || c = '\r' || c = '\x0b' || c = '\x0c'

/-- Python regex `\w` on ASCII text, used by the module-name scan. -/
def isWordChar (c : Char) : Bool :=
  c.isAlphanum || c = '_'

/-- Gap between the literal head of a deny-list regex and its tail:
no gap at all, `\s*`, or `\s+`. -/
inductive Gap where
  | direct
  | star
  | plus
deriving DecidableEq

/-- One deny-list regex of `SecureSandbox.dangerous_patterns`. Every one of
the eighteen source patterns has the shape: a literal head, an optional
whitespace gap, and an alternation of literal tails. `src` keeps the original
regex text, which the raised `SecurityError` message embeds. -/
structure DenyPat where
  src : String
  pre : List Char
  gap : Gap
  post : List (List Char)

/-- Continuation-passing match of `\s*` with full backtracking: consume some
number of leading whitespace characters, then the continuation must accept
the remainder. -/
def skipWs (k : List Char → Bool) : List Char → Bool
  | [] => k []
  | c :: rest => k (c :: rest) || (isPySpace c && skipWs k rest)

/-- Does one of the alternation's literal tails start here? -/
def matchPostAny (post : List (List Char)) (cs : List Char) : Bool :=
  post.any fun s => s.isPrefixOf cs

/-- Match a deny-list pattern anchored at the start of `cs`. -/
def matchPatAt (p : DenyPat) (cs : List Char) : Bool :=
  p.pre.isPrefixOf cs &&
    (let rest := cs.drop p.pre.length
     match p.gap with
     | Gap.direct => matchPostAny p.post rest
     | Gap.star => skipWs (matchPostAny p.post) rest
     | Gap.plus =>
       match rest with
       | [] => false
       | c :: r => isPySpace c && skipWs (matchPostAny p.post) r)

/-- Python `re.search`: the pattern may match starting at any position. -/
def regexSearch (p : DenyPat) : List Char → Bool
  | [] => matchPatAt p []
  | c :: rest => matchPatAt p (c :: rest) || regexSearch p rest

/-- The module alternation of the first two deny-list patterns. -/
def deniedModules : List (List Char) :=
  ["os".toList, "sys".toList, "subprocess".toList, "socket".toList,
   "urllib".toList, "requests".toList]

/-- `SecureSandbox.dangerous_patterns` (sandbox.py lines 77-96), in source
order. The patterns with no tail after the literal head carry the empty tail,
which matches anywhere. -/
def dangerous_patterns : List DenyPat :=
  [⟨"import\\s+(os|sys|subprocess|socket|urllib|requests)", "import".toList, Gap.plus, deniedModules⟩,
   ⟨"from\\s+(os|sys|subprocess|socket|urllib|requests)", "from".toList, Gap.plus, deniedModules⟩,
   ⟨"__import__\\s*\\(", "__import__".toList, Gap.star, ["(".toList]⟩,
   ⟨"eval\\s*\\(", "eval".toList, Gap.star, ["(".toList]⟩,
   ⟨"exec\\s*\\(", "exec".toList, Gap.star, ["(".toList]⟩,
   ⟨"compile\\s*\\(", "compile".toList, Gap.star, ["(".toList]⟩,
   ⟨"open\\s*\\(", "open".toList, Gap.star, ["(".toList]⟩,
   ⟨"file\\s*\\(", "file".toList, Gap.star, ["(".toList]⟩,
   ⟨"input\\s*\\(", "input".toList, Gap.star, ["(".toList]⟩,
   ⟨"raw_input\\s*\\(", "raw_input".toList, Gap.star, ["(".toList]⟩,
   ⟨"\\.system\\s*\\(", ".system".toList, Gap.star, ["(".toList]⟩,
   ⟨"\\.popen\\s*\\(", ".popen".toList, Gap.star, ["(".toList]⟩,
   ⟨"\\.call\\s*\\(", ".call".toList, Gap.star, ["(".toList]⟩,
   ⟨"shutil\\.", "shutil.".toList, Gap.direct, [([] : List Char)]⟩,
   ⟨"pathlib\\.", "pathlib.".toList, Gap.direct, [([] : List Char)]⟩,
   ⟨"glob\\.", "glob.".toList, Gap.direct, [([] : List Char)]⟩,
   ⟨"tempfile\\.", "tempfile.".toList, Gap.direct, [([] : List Char)]⟩,
   ⟨"pickle\\.", "pickle.".toList, Gap.direct, [([] : List Char)]⟩]

/-- `SecureSandbox.allowed_imports`: modules whose use is tolerated.
A module outside the list is only logged, never blocked. -/
def allowed_imports : List String :=
  ["math", "random", "datetime", "json", "csv", "itertools",
   "collections", "functools", "operator", "string", "decimal",
   "fractions", "statistics", "re", "unicodedata",
   "numpy", "pandas", "matplotlib", "seaborn", "plotly",
   "scipy", "sklearn", "PIL", "cv2", "sympy"]

/-- Number of leading characters satisfying `p`. -/
def countLeading (p : Char → Bool) : List Char → Nat
  | [] => 0
  | c :: rest => if p c then countLeading p rest + 1 else 0

/-- Greedy match of `kw` + `\s+` + `(\w+)` anchored at the start of `cs`, the
way Python's `re.findall(r'import\s+(\w+)')` matches at one position: on
success, the captured word and the remainder after the whole match. -/
def keywordModuleAt (kw : List Char) (cs : List Char) : Option (List Char × List Char) :=
  if kw.isPrefixOf cs then
    let r1 := cs.drop kw.length
    let nws := countLeading isPySpace r1
    if nws = 0 then none
    else
      let r2 := r1.drop nws
      let nw := countLeading isWordChar r2
      if nw = 0 then none
      else some (r2.take nw, r2.drop nw)
  else none

/-- Left-to-right non-overlapping scan of `re.findall`. `fuel` bounds the
recursion; `cs.length` is always enough fuel because a successful match
consumes at least two characters and a failure advances one. -/
def findModulesGo (kw : List Char) : Nat → List Char → List (List Char)
  | 0, _ => []
  | _, [] => []
  | fuel + 1, c :: rest =>
    match keywordModuleAt kw (c :: rest) with
    | some (m, rem) => m :: findModulesGo kw fuel rem
    | none => findModulesGo kw fuel rest

def findModules (kw : List Char) (cs : List Char) : List (List Char) :=
  findModulesGo kw cs.length cs

/-- Module-name scan of `_check_security` (sandbox.py lines 124-131): every
module matched by `import\s+(\w+)` or `from\s+(\w+)` and missing from
`allowed_imports` draws a log warning; none blocks execution. -/
def moduleWarnings (code : List Char) : List String :=
  ((findModules "import".toList code ++ findModules "from".toList code).map
      fun m => String.mk m).filter
    fun m => !(allowed_imports.contains m)

/-- `SecureSandbox._check_security` (sandbox.py lines 107-135). A raised
`SecurityError` is `Except.error` carrying the exception message; `Except.ok`
carries the module names that were only warned about. The deny-list scan runs
first and case-insensitively (`re.IGNORECASE`); the 50,000-character cap is
checked last, exactly as in the source. -/
def check_security (code : List Char) : Except String (List String) :=
  match dangerous_patterns.find? (fun p => regexSearch p (code.map Char.toLower)) with
  | some p => Except.error ("Código bloqueado: patrón peligroso detectado - " ++ p.src)
  | none =>
    let warns := moduleWarnings code
    if 50000 < code.length then Except.error "Código demasiado largo (máximo 50KB)"
    else Except.ok warns

/-- Does `check_security` accept the code (no `SecurityError` raised)? -/
def checkPasses (code : List Char) : Bool :=
  match check_security code with
  | Except.ok _ => true
  | Except.error _ => false

/-! ## Stateless Sandbox Executor (`SecureSandbox`, sandbox.py 55-480) -/

/-- Execution status of a result dictionary. -/
inductive Status where
  | success
  | error
  | timeout
deriving DecidableEq

/-- The result dictionary of `execute_python` / `execute_javascript`. -/
structure SandboxResult where
  status : Status
  output : String
  error : Option String
  execution_time : ℚ
  visualizations : List String
  data : List (String × String)
deriving DecidableEq

/-- Oracle for the would-be child process: it finishes within the timeout
(with the given exit code, decoded streams, measured time and artifacts left
in the working directory), or exceeds the timeout, or its spawn raises. -/
inductive ProcBehavior where
  | completes (returncode : Int) (stdout : String) (stderr : String)
      (elapsed : ℚ) (pngs : List String) (dataFiles : List (String × String))
  | timesOut
  | spawnError (msg : String)

/-- What reaches the caller of an executor: a returned result dictionary, or
an exception of the given type and message escaping the function. -/
inductive PyOutcome where
  | ok (r : SandboxResult)
  | raised (exnType : String) (msg : String)
deriving DecidableEq

/-- Observable side effects of one stateless execution once it returns. -/
structure SideEffects where
  dirCreated : Bool
  dirExists : Bool
  spawned : Nat
  terminated : Bool
deriving DecidableEq

structure SandboxConfig where
  default_timeout : Nat
deriving DecidableEq

def defaultCfg : SandboxConfig := ⟨30⟩

/-- Python `timeout = timeout or self.default_timeout`: `None` and `0` both
fall back to the default. -/
def resolveTimeout (cfg : SandboxConfig) : Option Nat → Nat
  | none => cfg.default_timeout
  | some t => if t = 0 then cfg.default_timeout else t

/-- `SecureSandbox.execute_python` (sandbox.py lines 158-269), faithful to the
source's control flow: `_check_security` runs before the `try:` block, so a
`SecurityError` it raises escapes the function — the `except SecurityError`
handler inside only covers the `try` body, which raises none. The working
directory is created next; the `finally:` clause removes it on every path
through the `try`. -/
def execute_python (cfg : SandboxConfig) (code : List Char) (timeout? : Option Nat)
    (proc : ProcBehavior) : PyOutcome × SideEffects :=
  let timeout := resolveTimeout cfg timeout?
  match check_security code with
  | Except.error e =>
    (PyOutcome.raised "SecurityError" e, ⟨false, false, 0, false⟩)
  | Except.ok _ =>
    match proc with
    | ProcBehavior.spawnError msg =>
      (PyOutcome.ok ⟨Status.error, "", some ("Error interno: " ++ msg), 0, [], []⟩,
       ⟨true, false, 0, false⟩)
    | ProcBehavior.timesOut =>
      (PyOutcome.ok ⟨Status.timeout, "",
         some ("Ejecución excedió " ++ toString timeout ++ "s"), (timeout : ℚ), [], []⟩,
       ⟨true, false, 1, true⟩)
    | ProcBehavior.completes rc out err elapsed pngs dataFiles =>
      (PyOutcome.ok ⟨if rc = 0 then Status.success else Status.error, out,
         (if err = "" then none else some err), elapsed, pngs, dataFiles⟩,
       ⟨true, false, 1, false⟩)

/-- Substring test, Python's `needle in haystack`. -/
def containsSub (needle : List Char) : List Char → Bool
  | [] => needle.isPrefixOf []
  | c :: rest => needle.isPrefixOf (c :: rest) || containsSub needle rest

/-- `SecureSandbox.execute_javascript` (sandbox.py lines 395-480). Its `try`
block has no `except ExecutionTimeoutError` clause, so the timeout exception
raised after terminating the process falls into the generic
`except Exception` handler, which reports `status=error` and
`execution_time=0.0`. -/
def execute_javascript (cfg : SandboxConfig) (code : List Char) (timeout? : Option Nat)
    (proc : ProcBehavior) : PyOutcome × SideEffects :=
  let timeout := resolveTimeout cfg timeout?
  if containsSub "require(".toList code && containsSub "fs".toList code then
    (PyOutcome.ok ⟨Status.error, "", some "Acceso al sistema de archivos no permitido",
       0, [], []⟩,
     ⟨false, false, 0, false⟩)
  else
    match proc with
    | ProcBehavior.spawnError msg =>
      (PyOutcome.ok ⟨Status.error, "", some msg, 0, [], []⟩, ⟨true, false, 0, false⟩)
    | ProcBehavior.timesOut =>
      (PyOutcome.ok ⟨Status.error, "",
         some ("Ejecución excedió " ++ toString timeout ++ "s"), 0, [], []⟩,
       ⟨true, false, 1, true⟩)
    | ProcBehavior.completes rc out err elapsed _ _ =>
      (PyOutcome.ok ⟨if rc = 0 then Status.success else Status.error, out,
         (if err = "" then none else some err), elapsed, [], []⟩,
       ⟨true, false, 1, false⟩)

instance {ε α : Type} [DecidableEq ε] [DecidableEq α] : DecidableEq (Except ε α) := fun a b =>
  match a, b with
  | Except.ok x, Except.ok y => decidable_of_iff (x = y) (by simp)
  | Except.error x, Except.error y => decidable_of_iff (x = y) (by simp)
  | Except.ok _, Except.error _ => isFalse (by simp)
  | Except.error _, Except.ok _ => isFalse (by simp)

/-! ## Session Pool Manager (`JupyterKernelManager`, jupyter_kernel.py 32-528) -/

/-- The per-session record stored in `self.kernels`
(jupyter_kernel.py lines 129-137). The `kernel_manager` / `kernel_client`
handles are not data of the model: the process and channel operations they
receive are recorded in the action trace instead. Timestamps are abstract
clock readings. -/
structure KernelInfo where
  kernel_name : String
  session_id : String
  created_at : Nat
  last_activity : Nat
  execution_count : Nat
deriving DecidableEq

/-- Insertion-ordered association list standing for the Python dict
`self.kernels` (keys stay unique because admission is guarded by a
membership test). -/
abbrev Pool := List (String × KernelInfo)

def lookupKey : Pool → String → Option KernelInfo
  | [], _ => none
  | (k, v) :: rest, sid => if k = sid then some v else lookupKey rest sid

def containsKey : Pool → String → Bool
  | [], _ => false
  | (k, _) :: rest, sid => if k = sid then true else containsKey rest sid

def updateKey : Pool → String → (KernelInfo → KernelInfo) → Pool
  | [], _, _ => []
  | (k, v) :: rest, sid, f =>
    if k = sid then (k, f v) :: rest else (k, v) :: updateKey rest sid f

def removeKey : Pool → String → Pool
  | [], _ => []
  | (k, v) :: rest, sid => if k = sid then rest else (k, v) :: removeKey rest sid

/-- One step of Python's `min(iterable, key=...)`: keep the current best and
replace it only on a strictly smaller `last_activity`, so the first minimum
in iteration order wins — exactly `min` over the dict's insertion-ordered
keys with lookup by key. -/
def argminStep (acc : Option (String × KernelInfo)) (e : String × KernelInfo) :
    Option (String × KernelInfo) :=
  match acc with
  | none => some e
  | some b => if e.2.last_activity < b.2.last_activity then some e else some b

/-- `min(self.kernels.keys(), key=lambda k: self.kernels[k]['last_activity'])`
(jupyter_kernel.py lines 112-115), returning the whole entry; `none` exactly
when the dict is empty, where the Python `min` raises `ValueError`. -/
def argminEntry (ks : Pool) : Option (String × KernelInfo) :=
  ks.foldl argminStep none

/-- `JupyterKernelManager` state on the `available=True` path: the
constructor configuration plus the session dict. -/
structure JKM where
  max_kernels : Nat
  kernel_timeout : Nat
  kernels : Pool
deriving DecidableEq

/-- The state right after `__init__` (source defaults: `max_kernels=10`,
`kernel_timeout=3600`). -/
def initPool (maxKernels kernelTimeout : Nat) : JKM :=
  ⟨maxKernels, kernelTimeout, []⟩

/-- `JupyterKernelManager.kill_session` (jupyter_kernel.py lines 453-483):
`False` for an unknown id; otherwise channel and kernel teardown (modelled as
succeeding) followed by `del self.kernels[session_id]` and `True`. -/
def kill_session (st : JKM) (sid : String) : Bool × JKM :=
  if containsKey st.kernels sid then
    (true, {st with kernels := removeKey st.kernels sid})
  else (false, st)

/-- Process/channel operations issued while serving `get_or_create_kernel`,
in order. -/
inductive KAction where
  | stopChannels (sid : String)
  | shutdownKernel (sid : String)
  | startKernel
  | startChannels
  | waitReady (timeoutSecs : Nat)
deriving DecidableEq

/-- The `kernel_info` dict built for a newly created kernel
(jupyter_kernel.py lines 129-137). -/
def freshInfo (sid kernelName : String) (now : Nat) : KernelInfo :=
  ⟨kernelName, sid, now, now, 0⟩

/-- Kernel spawn, channel opening and the bounded readiness wait
`kc.wait_for_ready(timeout=30)` (jupyter_kernel.py lines 120-127). `spawn`
is the oracle for an exception raised while doing so, carrying its message;
on failure the source logs and re-raises, admitting nothing. -/
def spawnNewKernel (st : JKM) (sid kernelName : String) (now : Nat)
    (spawn : Option String) (tr : List KAction) :
    Except String KernelInfo × JKM × List KAction :=
  let tr2 := tr ++ [KAction.startKernel, KAction.startChannels, KAction.waitReady 30]
  match spawn with
  | some msg => (Except.error msg, st, tr2)
  | none =>
    let info := freshInfo sid kernelName now
    (Except.ok info, {st with kernels := st.kernels ++ [(sid, info)]}, tr2)

/-- `JupyterKernelManager.get_or_create_kernel` (jupyter_kernel.py lines
90-146). An existing session has only its `last_activity` refreshed and is
returned. Otherwise, when the dict has reached `max_kernels`, the entry with
the smallest `last_activity` is killed first (the Python `min` would raise
`ValueError` on an empty dict); then a new kernel is spawned, waited for and
admitted. -/
def get_or_create_kernel (st : JKM) (sid kernelName : String) (now : Nat)
    (spawn : Option String) : Except String KernelInfo × JKM × List KAction :=
  match lookupKey st.kernels sid with
  | some v =>
    (Except.ok {v with last_activity := now},
     {st with kernels := updateKey st.kernels sid fun w => {w with last_activity := now}},
     [])
  | none =>
    if st.max_kernels ≤ st.kernels.length then
      match argminEntry st.kernels with
      | none => (Except.error "ValueError: min() arg is an empty sequence", st, [])
      | some oldest =>
        let st1 := (kill_session st oldest.1).2
        spawnNewKernel st1 sid kernelName now spawn
          [KAction.stopChannels oldest.1, KAction.shutdownKernel oldest.1]
    else spawnNewKernel st sid kernelName now spawn []

/-- `JupyterKernelManager._cleanup_inactive_kernels` (jupyter_kernel.py
lines 76-88): collect the session ids idle for more than `kernel_timeout`
seconds, then kill each one. -/
def cleanup_inactive_kernels (st : JKM) (now : Nat) : JKM :=
  let inactive :=
    (st.kernels.filter fun e => st.kernel_timeout < now - e.2.last_activity).map Prod.fst
  inactive.foldl (fun s sid => (kill_session s sid).2) st

/-- One pool operation together with its oracle inputs. -/
inductive PoolOp where
  | getOrCreate (sid kernelName : String) (now : Nat) (spawn : Option String)
  | kill (sid : String)
  | reap (now : Nat)

def applyOp (st : JKM) : PoolOp → JKM
  | PoolOp.getOrCreate sid kernelName now spawn =>
    (get_or_create_kernel st sid kernelName now spawn).2.1
  | PoolOp.kill sid => (kill_session st sid).2
  | PoolOp.reap now => cleanup_inactive_kernels st now

def runOps (maxKernels kernelTimeout : Nat) (ops : List PoolOp) : JKM :=
  ops.foldl applyOp (initPool maxKernels kernelTimeout)

/-! ## Session execution and the Output Aggregator
(`JupyterKernelManager.execute_cell`, jupyter_kernel.py 148-313) -/

/-- Mime bundle of an `execute_result` / `display_data` message: the four
keys that `execute_cell` inspects. -/
structure MimeData where
  plain : Option String
  png : Option String
  html : Option String
  json : Option String
deriving DecidableEq

/-- Content of an `error` iopub message or a non-ok shell reply. -/
structure ErrInfo where
  ename : String
  evalue : String
  traceback : Option (List String)
deriving DecidableEq

inductive IOPubMsg where
  | streamMsg (name text : String)
  | executeResult (d : MimeData)
  | displayData (d : MimeData)
  | errorMsg (ename evalue : String) (tb : List String)
  | statusMsg (idle : Bool)
  | otherMsg
deriving DecidableEq

/-- What one turn of the poll loop observes: an iopub message (with the
parent-header correlation against the submission's `msg_id`), a shell-channel
reply, or no message ready this tick. The list of these is the oracle for
everything arriving before the deadline; exhausting it is the deadline
elapsing. -/
inductive PollEvent where
  | iopub (matching : Bool) (msg : IOPubMsg)
  | shellReply (matching : Bool) (ok : Bool) (content : ErrInfo)
  | quiet
deriving DecidableEq

/-- An entry of the `outputs` list that `execute_cell` collects. -/
inductive OutputItem where
  | stream (name text : String)
  | execRes (d : MimeData)
  | display (d : MimeData)
deriving DecidableEq

/-- What the poll loop ends with: the collected `outputs` and the
`error_output` slot. -/
structure LoopResult where
  outputs : List OutputItem
  errOut : Option ErrInfo
deriving DecidableEq

/-- The message poll loop of `execute_cell` (jupyter_kernel.py lines
189-252). Matching iopub messages feed `outputs`, set `error_output`, or end
the loop on an idle status; a matching shell reply ends the loop, recorded as
the error when its status is not ok and no richer error event was captured;
non-matching messages are consumed and ignored. Exhausting the schedule is
the deadline elapsing without a terminating signal. -/
def pollLoop : List PollEvent → List OutputItem → Option ErrInfo → LoopResult
  | [], outs, err => ⟨outs, err⟩
  | PollEvent.quiet :: rest, outs, err => pollLoop rest outs err
  | PollEvent.iopub matching m :: rest, outs, err =>
    if matching then
      match m with
      | IOPubMsg.streamMsg n t => pollLoop rest (outs ++ [OutputItem.stream n t]) err
      | IOPubMsg.executeResult d => pollLoop rest (outs ++ [OutputItem.execRes d]) err
      | IOPubMsg.displayData d => pollLoop rest (outs ++ [OutputItem.display d]) err
      | IOPubMsg.errorMsg en evl tb => pollLoop rest outs (some ⟨en, evl, some tb⟩)
      | IOPubMsg.statusMsg idle => if idle then ⟨outs, err⟩ else pollLoop rest outs err
      | IOPubMsg.otherMsg => pollLoop rest outs err
    else pollLoop rest outs err
  | PollEvent.shellReply matching ok content :: rest, outs, err =>
    if matching then
      if ok then ⟨outs, err⟩ else ⟨outs, some (err.getD content)⟩
    else pollLoop rest outs err

/-- Running aggregation state: `output_text`, `visualizations` and the
`data` dict (its two possible keys). -/
structure AggState where
  text : String
  vis : List String
  dataHtml : Option String
  dataJson : Option String
deriving DecidableEq

/-- Aggregation of one `execute_result` / `display_data` payload, in the
source's key order: `text/plain`, `image/png`, `text/html`,
`application/json` (jupyter_kernel.py lines 264-281). -/
def aggData (s : AggState) (d : MimeData) : AggState :=
  let s1 := match d.plain with
    | some p => {s with text := s.text ++ p ++ "\n"}
    | none => s
  let s2 := match d.png with
    | some img => {s1 with vis := s1.vis ++ [img]}
    | none => s1
  let s3 := match d.html with
    | some h => {s2 with dataHtml := some h}
    | none => s2
  match d.json with
  | some j => {s3 with dataJson := some j}
  | none => s3

/-- One step of the `for output in outputs:` aggregation loop
(jupyter_kernel.py lines 261-281). -/
def aggStep (s : AggState) (o : OutputItem) : AggState :=
  match o with
  | OutputItem.stream _ t => {s with text := s.text ++ t}
  | OutputItem.execRes d => aggData s d
  | OutputItem.display d => aggData s d

/-- The Output Aggregator: the pure fold the source performs over the
collected `outputs` list. -/
def aggregate_outputs (outs : List OutputItem) : AggState :=
  outs.foldl aggStep ⟨"", [], none, none⟩

/-- The result dictionary of `execute_cell`. -/
structure CellResult where
  status : Status
  output : String
  error : Option String
  execution_time : ℚ
  visualizations : List String
  dataHtml : Option String
  dataJson : Option String
  execution_count : Nat
deriving DecidableEq

/-- Error message assembly (jupyter_kernel.py lines 284-288). -/
def errMessage (eo : ErrInfo) : String :=
  eo.ename ++ ": " ++ eo.evalue ++
    match eo.traceback with
    | some tb => "\n" ++ String.intercalate "\n" tb
    | none => ""

/-- Oracle inputs of one `execute_cell` call: whether kernel
lookup-or-creation raises (threaded to `get_or_create_kernel`), whether
submitting the code over the channel (`kc.execute`) raises, and the measured
wall time of the call. -/
structure CellEnv where
  spawn : Option String
  execRaise : Option String
  elapsed : ℚ

/-- The result built by the `except Exception` handler of `execute_cell`
(jupyter_kernel.py lines 303-313): note the hard-coded `execution_count: 0`. -/
def internalKernelError (msg : String) : CellResult :=
  ⟨Status.error, "", some ("Error interno del kernel: " ++ msg), 0, [], none, none, 0⟩

/-- `JupyterKernelManager.execute_cell` (jupyter_kernel.py lines 148-313) on
the `available=True` path. Kernel lookup-or-creation first; then the stored
`execution_count` is incremented and `last_activity` refreshed (a dict-entry
mutation, before polling starts); then the code is submitted and the poll
loop runs over the event schedule; finally the collected outputs are
aggregated into the result. Any raised exception lands in the `except`
handler and becomes an internal-error result. The submitted code text and
the numeric deadline are abstracted by the event schedule oracle. -/
def execute_cell (st : JKM) (sid : String) (_code : String) (_timeoutSecs : Nat)
    (now : Nat) (env : CellEnv) (sched : List PollEvent) : CellResult × JKM :=
  match get_or_create_kernel st sid "python3" now env.spawn with
  | (Except.error e, st1, _) => (internalKernelError e, st1)
  | (Except.ok info, st1, _) =>
    let st2 : JKM := {st1 with kernels := updateKey st1.kernels sid fun v =>
      {v with last_activity := now, execution_count := v.execution_count + 1}}
    match env.execRaise with
    | some e => (internalKernelError e, st2)
    | none =>
      let lr := pollLoop sched [] none
      let agg := aggregate_outputs lr.outputs
      match lr.errOut with
      | some eo =>
        (⟨Status.error, agg.text.trim, some (errMessage eo), env.elapsed,
          agg.vis, agg.dataHtml, agg.dataJson, info.execution_count + 1⟩, st2)
      | none =>
        (⟨Status.success, agg.text.trim, none, env.elapsed,
          agg.vis, agg.dataHtml, agg.dataJson, info.execution_count + 1⟩, st2)

/-! ## Characterization helpers used by the theorem statements -/

/-- Does this observation terminate the poll loop: a matching idle status on
iopub, or a matching shell reply? -/
def isTerminator : PollEvent → Bool
  | PollEvent.iopub matching (IOPubMsg.statusMsg idle) => matching && idle
  | PollEvent.shellReply matching _ _ => matching
  | _ => false

/-- The output entry one observation contributes to the collected list. -/
def collectOutput : PollEvent → Option OutputItem
  | PollEvent.iopub true (IOPubMsg.streamMsg n t) => some (OutputItem.stream n t)
  | PollEvent.iopub true (IOPubMsg.executeResult d) => some (OutputItem.execRes d)
  | PollEvent.iopub true (IOPubMsg.displayData d) => some (OutputItem.display d)
  | _ => none

/-- Effect of one observation on the `error_output` slot while the loop is
still polling. -/
def errStep (err : Option ErrInfo) : PollEvent → Option ErrInfo
  | PollEvent.iopub true (IOPubMsg.errorMsg en evl tb) => some ⟨en, evl, some tb⟩
  | _ => err

/-- Stream contribution of one collected output entry to the aggregated
stdout text: stream text verbatim, the `text/plain` payload plus a newline
for results and display data. -/
def streamText : OutputItem → String
  | OutputItem.stream _ t => t
  | OutputItem.execRes d =>
    match d.plain with
    | some p => p ++ "\n"
    | none => ""
  | OutputItem.display d =>
    match d.plain with
    | some p => p ++ "\n"
    | none => ""

/-- Ordered concatenation. -/
def concatAll : List String → String
  | [] => ""
  | s :: rest => s ++ concatAll rest

/-- Sample data used by the concrete witnesses below. -/
def sampleInfo (name : String) (la : Nat) : KernelInfo := ⟨"python3", name, 0, la, 0⟩

def samplePool : JKM :=
  ⟨2, 3600, [("a", sampleInfo "a" 5), ("b", sampleInfo "b" 3)]⟩

def sampleOps : List PoolOp :=
  [PoolOp.getOrCreate "x" "python3" 1 none, PoolOp.getOrCreate "y" "python3" 2 none,
   PoolOp.getOrCreate "z" "python3" 3 none, PoolOp.kill "y", PoolOp.reap 4000]

def sampleEnv : CellEnv := ⟨none, none, 2⟩

def sampleRaiseEnv : CellEnv := ⟨none, some "channel dead", 0⟩

def sampleSched : List PollEvent :=
  [PollEvent.iopub true (IOPubMsg.streamMsg "stdout" "hi "),
   PollEvent.quiet,
   PollEvent.iopub false (IOPubMsg.statusMsg true),
   PollEvent.iopub true (IOPubMsg.streamMsg "stdout" "there")]

/-! ## Bookkeeping lemmas about the session dict -/

theorem lookupKey_updateKey_self (ks : Pool) (sid : String) (f : KernelInfo → KernelInfo)
    (v : KernelInfo) (h : lookupKey ks sid = some v) :
    lookupKey (updateKey ks sid f) sid = some (f v) := by
  induction ks with
  | nil => simp [lookupKey] at h
  | cons e rest ih =>
    obtain ⟨k, w⟩ := e
    by_cases hk : k = sid
    · simp [lookupKey, hk] at h
      simp [updateKey, lookupKey, hk, h]
    · simp [lookupKey, hk] at h
      simp [updateKey, lookupKey, hk, ih h]

theorem containsKey_updateKey (ks : Pool) (sid s : String) (f : KernelInfo → KernelInfo) :
    containsKey (updateKey ks sid f) s = containsKey ks s := by
  induction ks with
  | nil => rfl
  | cons e rest ih =>
    obtain ⟨k, w⟩ := e
    by_cases hk : k = sid <;> simp [updateKey, containsKey, hk, ih]

theorem updateKey_length (ks : Pool) (sid : String) (f : KernelInfo → KernelInfo) :
    (updateKey ks sid f).length = ks.length := by
  induction ks with
  | nil => rfl
  | cons e rest ih =>
    obtain ⟨k, w⟩ := e
    by_cases hk : k = sid <;> simp [updateKey, hk, ih]

theorem removeKey_length_le (ks : Pool) (sid : String) :
    (removeKey ks sid).length ≤ ks.length := by
  induction ks with
  | nil => simp [removeKey]
  | cons e rest ih =>
    obtain ⟨k, w⟩ := e
    by_cases hk : k = sid <;> simp [removeKey, hk]
    omega

theorem removeKey_length_of_contains (ks : Pool) (sid : String)
    (h : containsKey ks sid = true) :
    (removeKey ks sid).length + 1 = ks.length := by
  induction ks with
  | nil => simp [containsKey] at h
  | cons e rest ih =>
    obtain ⟨k, w⟩ := e
    by_cases hk : k = sid
    · simp [removeKey, hk]
    · simp [containsKey, hk] at h
      have := ih h
      simp [removeKey, hk]
      omega

theorem containsKey_removeKey_of_not (ks : Pool) (k s : String)
    (h : containsKey ks s = false) :
    containsKey (removeKey ks k) s = false := by
  induction ks with
  | nil => simp [removeKey, containsKey]
  | cons e rest ih =>
    obtain ⟨k0, w⟩ := e
    by_cases hs : k0 = s
    · simp [containsKey, hs] at h
    · simp [containsKey, hs] at h
      by_cases hk : k0 = k
      · simp [removeKey, hk, h]
      · simp [removeKey, hk, containsKey, hs, ih h]

theorem containsKey_of_mem (ks : Pool) (e : String × KernelInfo) (h : e ∈ ks) :
    containsKey ks e.1 = true := by
  induction ks with
  | nil => simp at h
  | cons x rest ih =>
    obtain ⟨k, w⟩ := x
    rcases List.mem_cons.mp h with h1 | h1
    · subst h1; simp [containsKey]
    · by_cases hk : k = e.1 <;> simp [containsKey, hk, ih h1]

theorem containsKey_eq_isSome (ks : Pool) (sid : String) :
    containsKey ks sid = (lookupKey ks sid).isSome := by
  induction ks with
  | nil => rfl
  | cons e rest ih =>
    obtain ⟨k, w⟩ := e
    by_cases hk : k = sid <;> simp [containsKey, lookupKey, hk, ih]

theorem lookupKey_eq_none (ks : Pool) (sid : String) (h : containsKey ks sid = false) :
    lookupKey ks sid = none := by
  have h2 := containsKey_eq_isSome ks sid
  rw [h] at h2
  cases hlk : lookupKey ks sid
  · rfl
  · rw [hlk] at h2; simp at h2

theorem lookupKey_append_new (ks : Pool) (sid : String) (v : KernelInfo)
    (h : containsKey ks sid = false) :
    lookupKey (ks ++ [(sid, v)]) sid = some v := by
  induction ks with
  | nil => simp [lookupKey]
  | cons e rest ih =>
    obtain ⟨k, w⟩ := e
    by_cases hk : k = sid
    · simp [containsKey, hk] at h
    · simp [containsKey, hk] at h
      simp [lookupKey, hk, ih h]

theorem containsKey_append_new (ks : Pool) (sid : String) (v : KernelInfo)
    (h : containsKey ks sid = false) :
    containsKey (ks ++ [(sid, v)]) sid = true := by
  rw [containsKey_eq_isSome, lookupKey_append_new ks sid v h]
  rfl

theorem argmin_go_spec (ks : Pool) :
    ∀ b : String × KernelInfo, ∃ e, ks.foldl argminStep (some b) = some e ∧
      (e = b ∨ e ∈ ks) ∧ e.2.last_activity ≤ b.2.last_activity ∧
      ∀ x ∈ ks, e.2.last_activity ≤ x.2.last_activity := by
  induction ks with
  | nil => intro b; exact ⟨b, rfl, Or.inl rfl, le_refl _, by simp⟩
  | cons x rest ih =>
    intro b
    by_cases hx : x.2.last_activity < b.2.last_activity
    · obtain ⟨e, he, hmem, hle, hall⟩ := ih x
      refine ⟨e, ?_, ?_, le_trans hle (le_of_lt hx), ?_⟩
      · simpa [argminStep, hx] using he
      · rcases hmem with h1 | h1
        · exact Or.inr (by simp [h1])
        · exact Or.inr (by simp [h1])
      · intro y hy
        rcases List.mem_cons.mp hy with h1 | h1
        · subst h1; exact hle
        · exact hall y h1
    · obtain ⟨e, he, hmem, hle, hall⟩ := ih b
      refine ⟨e, ?_, ?_, hle, ?_⟩
      · simpa [argminStep, hx] using he
      · rcases hmem with h1 | h1
        · exact Or.inl h1
        · exact Or.inr (by simp [h1])
      · intro y hy
        rcases List.mem_cons.mp hy with h1 | h1
        · subst h1; exact le_trans hle (not_lt.mp hx)
        · exact hall y h1

theorem argminEntry_spec (ks : Pool) (hne : ks ≠ []) :
    ∃ e, argminEntry ks = some e ∧ e ∈ ks ∧
      ∀ x ∈ ks, e.2.last_activity ≤ x.2.last_activity := by
  cases ks with
  | nil => simp at hne
  | cons x rest =>
    obtain ⟨e, he, hmem, hle, hall⟩ := argmin_go_spec rest x
    refine ⟨e, ?_, ?_, ?_⟩
    · simpa [argminEntry, argminStep] using he
    · rcases hmem with h1 | h1
      · simp [h1]
      · simp [h1]
    · intro y hy
      rcases List.mem_cons.mp hy with h1 | h1
      · subst h1; exact hle
      · exact hall y h1

theorem argminEntry_mem_min (ks : Pool) (e : String × KernelInfo)
    (he : argminEntry ks = some e) :
    e ∈ ks ∧ ∀ x ∈ ks, e.2.last_activity ≤ x.2.last_activity := by
  have hne : ks ≠ [] := by
    intro h
    subst h
    simp [argminEntry] at he
  obtain ⟨e2, he2, hmem, hall⟩ := argminEntry_spec ks hne
  rw [he] at he2
  cases Option.some.inj he2
  exact ⟨hmem, hall⟩

/-! ## Behaviour lemmas for `get_or_create_kernel` and the pool operations -/

theorem goc_existing (st : JKM) (sid kernelName : String) (now : Nat)
    (spawn : Option String) (v : KernelInfo) (h : lookupKey st.kernels sid = some v) :
    get_or_create_kernel st sid kernelName now spawn =
      (Except.ok {v with last_activity := now},
       {st with kernels := updateKey st.kernels sid fun w => {w with last_activity := now}},
       []) := by
  simp [get_or_create_kernel, h]

theorem goc_evict (st : JKM) (sid kernelName : String) (now : Nat) (spawn : Option String)
    (hnew : containsKey st.kernels sid = false)
    (hcap : st.max_kernels ≤ st.kernels.length)
    (e : String × KernelInfo) (he : argminEntry st.kernels = some e) :
    get_or_create_kernel st sid kernelName now spawn =
      spawnNewKernel {st with kernels := removeKey st.kernels e.1} sid kernelName now spawn
        [KAction.stopChannels e.1, KAction.shutdownKernel e.1] := by
  have hl := lookupKey_eq_none st.kernels sid hnew
  have hmem := (argminEntry_mem_min st.kernels e he).1
  have hcont := containsKey_of_mem st.kernels e hmem
  simp [get_or_create_kernel, hl, hcap, he, kill_session, hcont]

theorem goc_room (st : JKM) (sid kernelName : String) (now : Nat) (spawn : Option String)
    (hnew : containsKey st.kernels sid = false)
    (hcap : ¬ st.max_kernels ≤ st.kernels.length) :
    get_or_create_kernel st sid kernelName now spawn =
      spawnNewKernel st sid kernelName now spawn [] := by
  have hl := lookupKey_eq_none st.kernels sid hnew
  simp [get_or_create_kernel, hl, hcap]

theorem goc_inv (st : JKM) (sid kernelName : String) (now : Nat) (spawn : Option String)
    (hlen : st.kernels.length ≤ st.max_kernels) :
    ((get_or_create_kernel st sid kernelName now spawn).2.1).max_kernels = st.max_kernels ∧
    ((get_or_create_kernel st sid kernelName now spawn).2.1).kernels.length ≤ st.max_kernels := by
  cases hl : lookupKey st.kernels sid with
  | some v =>
    simp [get_or_create_kernel, hl, updateKey_length, hlen]
  | none =>
    by_cases hcap : st.max_kernels ≤ st.kernels.length
    · cases ha : argminEntry st.kernels with
      | none =>
        simp [get_or_create_kernel, hl, hcap, ha, hlen]
      | some oldest =>
        have hmem := (argminEntry_mem_min st.kernels oldest ha).1
        have hcont := containsKey_of_mem st.kernels oldest hmem
        have hrem := removeKey_length_of_contains st.kernels oldest.1 hcont
        cases spawn with
        | none =>
          simp [get_or_create_kernel, hl, hcap, ha, spawnNewKernel, kill_session, hcont]
          omega
        | some msg =>
          simp [get_or_create_kernel, hl, hcap, ha, spawnNewKernel, kill_session, hcont]
          omega
    · cases spawn with
      | none =>
        simp [get_or_create_kernel, hl, hcap, spawnNewKernel]
        omega
      | some msg =>
        simp [get_or_create_kernel, hl, hcap, spawnNewKernel]
        exact hlen

theorem kill_session_max (st : JKM) (sid : String) :
    ((kill_session st sid).2).max_kernels = st.max_kernels := by
  unfold kill_session
  split <;> rfl

theorem kill_session_len_le (st : JKM) (sid : String) :
    ((kill_session st sid).2).kernels.length ≤ st.kernels.length := by
  unfold kill_session
  split
  · simpa using removeKey_length_le st.kernels sid
  · exact le_refl _

theorem killFold_max (l : List String) : ∀ st : JKM,
    (l.foldl (fun s sid => (kill_session s sid).2) st).max_kernels = st.max_kernels := by
  induction l with
  | nil => intro st; rfl
  | cons x rest ih =>
    intro st
    exact (ih ((kill_session st x).2)).trans (kill_session_max st x)

theorem killFold_len_le (l : List String) : ∀ st : JKM,
    (l.foldl (fun s sid => (kill_session s sid).2) st).kernels.length ≤ st.kernels.length := by
  induction l with
  | nil => intro st; exact le_refl _
  | cons x rest ih =>
    intro st
    exact le_trans (ih _) (kill_session_len_le st x)

theorem applyOp_inv (N : Nat) (st : JKM) (op : PoolOp)
    (hmax : st.max_kernels = N) (hlen : st.kernels.length ≤ N) :
    (applyOp st op).max_kernels = N ∧ (applyOp st op).kernels.length ≤ N := by
  cases op with
  | getOrCreate sid kernelName now spawn =>
    have h := goc_inv st sid kernelName now spawn (by omega)
    exact ⟨by rw [applyOp, h.1, hmax], by rw [applyOp]; rw [hmax] at h; exact h.2⟩
  | kill sid =>
    refine ⟨by rw [applyOp, kill_session_max, hmax], ?_⟩
    have := kill_session_len_le st sid
    rw [applyOp]
    omega
  | reap now =>
    constructor
    · rw [applyOp]
      unfold cleanup_inactive_kernels
      rw [killFold_max, hmax]
    · have h2 := killFold_len_le
        ((st.kernels.filter fun e => st.kernel_timeout < now - e.2.last_activity).map Prod.fst) st
      simp only [applyOp, cleanup_inactive_kernels]
      omega

theorem foldl_inv (N : Nat) (ops : List PoolOp) : ∀ st : JKM,
    st.max_kernels = N → st.kernels.length ≤ N →
    (ops.foldl applyOp st).max_kernels = N ∧ (ops.foldl applyOp st).kernels.length ≤ N := by
  induction ops with
  | nil => intro st h1 h2; exact ⟨h1, h2⟩
  | cons op rest ih =>
    intro st h1 h2
    have h := applyOp_inv N st op h1 h2
    exact ih _ h.1 h.2

/-! ## Poll loop and aggregation lemmas -/

theorem pollLoop_no_terminator (sched : List PollEvent) :
    ∀ (outs : List OutputItem) (err : Option ErrInfo),
      (∀ e ∈ sched, isTerminator e = false) →
      pollLoop sched outs err =
        ⟨outs ++ sched.filterMap collectOutput, sched.foldl errStep err⟩ := by
  induction sched with
  | nil => intro outs err _; simp [pollLoop]
  | cons ev rest ih =>
    intro outs err h
    have hev : isTerminator ev = false := h ev (List.mem_cons_self ev rest)
    have hrest : ∀ e ∈ rest, isTerminator e = false :=
      fun e he => h e (List.mem_cons_of_mem _ he)
    cases ev with
    | quiet => simp [pollLoop, collectOutput, errStep, ih _ _ hrest]
    | iopub matching m =>
      cases matching with
      | false => simp [pollLoop, collectOutput, errStep, ih _ _ hrest]
      | true =>
        cases m with
        | streamMsg n t => simp [pollLoop, collectOutput, errStep, ih _ _ hrest]
        | executeResult d => simp [pollLoop, collectOutput, errStep, ih _ _ hrest]
        | displayData d => simp [pollLoop, collectOutput, errStep, ih _ _ hrest]
        | errorMsg en evl tb => simp [pollLoop, collectOutput, errStep, ih _ _ hrest]
        | statusMsg idle =>
          cases idle with
          | false => simp [pollLoop, collectOutput, errStep, ih _ _ hrest]
          | true => simp [isTerminator] at hev
        | otherMsg => simp [pollLoop, collectOutput, errStep, ih _ _ hrest]
    | shellReply matching ok content =>
      cases matching with
      | false => simp [pollLoop, collectOutput, errStep, ih _ _ hrest]
      | true => simp [isTerminator] at hev

theorem aggStep_text (s : AggState) (o : OutputItem) :
    (aggStep s o).text = s.text ++ streamText o := by
  cases o with
  | stream n t => rfl
  | execRes d =>
    obtain ⟨pl, pn, ht, js⟩ := d
    cases pl <;> cases pn <;> cases ht <;> cases js <;>
      simp [aggStep, aggData, streamText, String.append_assoc]
  | display d =>
    obtain ⟨pl, pn, ht, js⟩ := d
    cases pl <;> cases pn <;> cases ht <;> cases js <;>
      simp [aggStep, aggData, streamText, String.append_assoc]

theorem aggFold_text (outs : List OutputItem) : ∀ s : AggState,
    (outs.foldl aggStep s).text = s.text ++ concatAll (outs.map streamText) := by
  induction outs with
  | nil => intro s; simp [concatAll]
  | cons o rest ih =>
    intro s
    show (rest.foldl aggStep (aggStep s o)).text = _
    rw [ih (aggStep s o), aggStep_text]
    simp [concatAll, String.append_assoc]

/-! ## Claim theorems -/

/-- C1 (the code contradicts the claim): a deny-listed submission spawns no
child process and creates no working directory, but the stateless executor
does not return a `status=error` result — the `SecurityError` raised by
`_check_security` escapes `execute_python`, because the check runs before the
`try:` block whose `except SecurityError` handler would build that result.
Evaluated on the deny-listed input `eval(data)`, for every configuration,
timeout and process oracle. -/
theorem security_violation_escapes_executor :
    ∀ (cfg : SandboxConfig) (timeout? : Option Nat) (proc : ProcBehavior),
      execute_python cfg ("eval(data)".toList) timeout? proc =
        (PyOutcome.raised "SecurityError"
           "Código bloqueado: patrón peligroso detectado - eval\\s*\\(",
         ⟨false, false, 0, false⟩) := by
  intro cfg t p
  rfl

/-- C2: after any sequence of get-or-create, kill and reap operations the
session dict holds at most `N` sessions (`N` = `max_kernels`, default 10);
and admitting a new session into a full non-empty pool first evicts exactly
an entry whose `last_activity` is smallest, then appends the new session,
keeping the size at `N`. -/
theorem pool_capacity_invariant_and_lru_eviction
    (N kernelTimeout : Nat) (ops : List PoolOp)
    (st : JKM) (sid kernelName : String) (now : Nat)
    (hmax : st.max_kernels = N) (hfull : st.kernels.length = N) (hpos : 0 < N)
    (hnew : containsKey st.kernels sid = false) :
    (runOps N kernelTimeout ops).kernels.length ≤ N ∧
    ∃ ev, argminEntry st.kernels = some ev ∧ ev ∈ st.kernels ∧
      (∀ x ∈ st.kernels, ev.2.last_activity ≤ x.2.last_activity) ∧
      get_or_create_kernel st sid kernelName now none =
        (Except.ok (freshInfo sid kernelName now),
         {st with kernels := removeKey st.kernels ev.1 ++ [(sid, freshInfo sid kernelName now)]},
         [KAction.stopChannels ev.1, KAction.shutdownKernel ev.1,
          KAction.startKernel, KAction.startChannels, KAction.waitReady 30]) ∧
      (removeKey st.kernels ev.1 ++ [(sid, freshInfo sid kernelName now)]).length = N := by
  constructor
  · exact (foldl_inv N ops (initPool N kernelTimeout) rfl (by simp [initPool])).2
  · have hne : st.kernels ≠ [] := by
      intro h0
      rw [h0] at hfull
      simp at hfull
      omega
    obtain ⟨ev, he, hmem, hall⟩ := argminEntry_spec st.kernels hne
    have hcont := containsKey_of_mem st.kernels ev hmem
    have hrem := removeKey_length_of_contains st.kernels ev.1 hcont
    refine ⟨ev, he, hmem, hall, ?_, ?_⟩
    · rw [goc_evict st sid kernelName now none hnew (by omega) ev he]
      simp [spawnNewKernel]
    · simp only [List.length_append, List.length_cons, List.length_nil]
      omega

/-- C2 witness: the invariant and the eviction shape at a concrete pool of
capacity 2 holding sessions `a` (last activity 5) and `b` (last activity 3),
admitting the fresh session `c`. -/
theorem pool_capacity_invariant_and_lru_eviction_witness :
    (runOps 2 3600 sampleOps).kernels.length ≤ 2 ∧
    ∃ ev, argminEntry samplePool.kernels = some ev ∧ ev ∈ samplePool.kernels ∧
      (∀ x ∈ samplePool.kernels, ev.2.last_activity ≤ x.2.last_activity) ∧
      get_or_create_kernel samplePool "c" "python3" 7 none =
        (Except.ok (freshInfo "c" "python3" 7),
         {samplePool with kernels := removeKey samplePool.kernels ev.1 ++ [("c", freshInfo "c" "python3" 7)]},
         [KAction.stopChannels ev.1, KAction.shutdownKernel ev.1,
          KAction.startKernel, KAction.startChannels, KAction.waitReady 30]) ∧
      (removeKey samplePool.kernels ev.1 ++ [("c", freshInfo "c" "python3" 7)]).length = 2 :=
  pool_capacity_invariant_and_lru_eviction 2 3600 sampleOps samplePool "c" "python3" 7
    rfl rfl (by decide) (by decide)

/-- C3 (amended): for a Python stateless execution whose child process runs
past the timeout, the process is forcibly terminated and the result has
`status=timeout` with `execution_time` equal to the resolved timeout; for a
JavaScript execution the process is likewise terminated, but the missing
`except ExecutionTimeoutError` handler makes the result `status=error` with
`execution_time=0`; `timeout` and `error` are distinct statuses. -/
theorem stateless_timeout_results :
    (∀ (cfg : SandboxConfig) (code : List Char) (timeout? : Option Nat) (w : List String),
       check_security code = Except.ok w →
       execute_python cfg code timeout? ProcBehavior.timesOut =
         (PyOutcome.ok ⟨Status.timeout, "",
            some ("Ejecución excedió " ++ toString (resolveTimeout cfg timeout?) ++ "s"),
            (resolveTimeout cfg timeout? : ℚ), [], []⟩,
          ⟨true, false, 1, true⟩)) ∧
    (∀ (cfg : SandboxConfig) (code : List Char) (timeout? : Option Nat),
       (containsSub "require(".toList code && containsSub "fs".toList code) = false →
       execute_javascript cfg code timeout? ProcBehavior.timesOut =
         (PyOutcome.ok ⟨Status.error, "",
            some ("Ejecución excedió " ++ toString (resolveTimeout cfg timeout?) ++ "s"),
            0, [], []⟩,
          ⟨true, false, 1, true⟩)) ∧
    Status.timeout ≠ Status.error := by
  refine ⟨?_, ?_, by decide⟩
  · intro cfg code t w h
    simp [execute_python, h]
  · intro cfg code t h
    have hn : ¬((containsSub "require(".toList code &&
        containsSub "fs".toList code) = true) := by
      rw [h]
      simp
    unfold execute_javascript
    rw [if_neg hn]

/-- C3 witness: a Python submission that passes the filter and times out at
5 seconds yields `status=timeout`, `execution_time=5`, process terminated. -/
theorem stateless_timeout_results_witness :
    execute_python defaultCfg ("print(1)".toList) (some 5) ProcBehavior.timesOut =
      (PyOutcome.ok ⟨Status.timeout, "",
         some ("Ejecución excedió " ++ toString (resolveTimeout defaultCfg (some 5)) ++ "s"),
         (resolveTimeout defaultCfg (some 5) : ℚ), [], []⟩,
       ⟨true, false, 1, true⟩) :=
  stateless_timeout_results.1 defaultCfg ("print(1)".toList) (some 5) [] (by rfl)

/-- C3 counterexample: a JavaScript stateless execution that exceeds its
5-second timeout returns `status=error` with `execution_time=0` — not
`status=timeout` with `execution_time=5` as the claim states. -/
theorem js_timeout_result_is_error_status :
    (execute_javascript defaultCfg ("for(;;);".toList) (some 5) ProcBehavior.timesOut).1 =
      PyOutcome.ok ⟨Status.error, "", some "Ejecución excedió 5s", 0, [], []⟩ ∧
    Status.error ≠ Status.timeout ∧ (0 : ℚ) ≠ (5 : ℚ) :=
  ⟨by rfl, by decide, by norm_num⟩

/-- C4: the disposable working directory no longer exists once the stateless
executor returns, on every exit path — a security rejection never creates it,
and success, runtime failure, timeout and spawn failure all pass through the
`finally:` cleanup — for Python and JavaScript alike. -/
theorem workdir_absent_after_return :
    ∀ (cfg : SandboxConfig) (code : List Char) (timeout? : Option Nat) (proc : ProcBehavior),
      ((execute_python cfg code timeout? proc).2).dirExists = false ∧
      ((execute_javascript cfg code timeout? proc).2).dirExists = false := by
  intro cfg code t proc
  constructor
  · unfold execute_python
    split
    · rfl
    · cases proc <;> rfl
  · unfold execute_javascript
    split
    · rfl
    · cases proc <;> rfl

/-- C5: the Security Filter rejects exactly the inputs that exceed the
50,000-character cap or match some deny-list pattern (case-insensitively);
and an input whose only anomaly is importing a module outside the allow-list
— here `import yaml` — is recorded as a warning but accepted. -/
theorem security_filter_accept_characterization :
    (∀ code : List Char,
       checkPasses code = true ↔
         (code.length ≤ 50000 ∧
          ∀ p ∈ dangerous_patterns, regexSearch p (code.map Char.toLower) = false)) ∧
    check_security ("import yaml".toList) = Except.ok ["yaml"] ∧
    allowed_imports.contains "yaml" = false := by
  refine ⟨?_, by rfl, by rfl⟩
  intro code
  unfold checkPasses check_security
  cases hf : dangerous_patterns.find? (fun p => regexSearch p (code.map Char.toLower)) with
  | some p =>
    have h1 := List.find?_some hf
    have h2 := List.mem_of_find?_eq_some hf
    simp only [Bool.false_eq_true, false_iff, not_and, not_forall]
    intro _
    exact ⟨p, h2, by simp [h1]⟩
  | none =>
    have h1 := List.find?_eq_none.mp hf
    by_cases hlen : 50000 < code.length
    · simp only [hlen, if_pos]
      constructor
      · intro h; exact absurd h (by simp)
      · intro h; omega
    · simp only [hlen, if_neg]
      constructor
      · intro _
        refine ⟨by omega, fun p hp => ?_⟩
        have := h1 p hp
        simpa using this
      · intro _; rfl

/-- C5 witness: the characterization evaluated at the concrete accepted
input `import yaml` (short, matching no pattern). -/
theorem security_filter_accept_characterization_witness :
    checkPasses ("import yaml".toList) = true ↔
      (("import yaml".toList).length ≤ 50000 ∧
       ∀ p ∈ dangerous_patterns,
         regexSearch p (("import yaml".toList).map Char.toLower) = false) :=
  security_filter_accept_characterization.1 ("import yaml".toList)

/-- C6: an existing session id only has its `last_activity` refreshed and its
stored record returned, with no kernel-management actions performed; an
unknown id leads to kernel spawn, channel opening and the 30-second bounded
readiness wait, after which the fresh session is admitted to the pool on
success, while a readiness failure propagates as an internal error and admits
nothing. -/
theorem get_or_create_refresh_or_spawn :
    (∀ (st : JKM) (sid kernelName : String) (now : Nat) (spawn : Option String) (v : KernelInfo),
       lookupKey st.kernels sid = some v →
       get_or_create_kernel st sid kernelName now spawn =
         (Except.ok {v with last_activity := now},
          {st with kernels := updateKey st.kernels sid fun w => {w with last_activity := now}},
          [])) ∧
    (∀ (st : JKM) (sid kernelName : String) (now : Nat) (spawn : Option String),
       containsKey st.kernels sid = false → 0 < st.max_kernels →
       (∃ pre, (get_or_create_kernel st sid kernelName now spawn).2.2 =
          pre ++ [KAction.startKernel, KAction.startChannels, KAction.waitReady 30]) ∧
       ((get_or_create_kernel st sid kernelName now none).1 =
          Except.ok (freshInfo sid kernelName now) ∧
        lookupKey ((get_or_create_kernel st sid kernelName now none).2.1).kernels sid =
          some (freshInfo sid kernelName now)) ∧
       (∀ msg, (get_or_create_kernel st sid kernelName now (some msg)).1 = Except.error msg ∧
          containsKey ((get_or_create_kernel st sid kernelName now (some msg)).2.1).kernels sid =
            false)) := by
  constructor
  · intro st sid kernelName now spawn v hv
    exact goc_existing st sid kernelName now spawn v hv
  · intro st sid kernelName now spawn hnew hpos
    by_cases hcap : st.max_kernels ≤ st.kernels.length
    · have hne : st.kernels ≠ [] := by
        intro h0
        rw [h0] at hcap
        simp at hcap
        omega
      obtain ⟨ev, he, hmem, _⟩ := argminEntry_spec st.kernels hne
      have hrm := containsKey_removeKey_of_not st.kernels ev.1 sid hnew
      refine ⟨?_, ?_, ?_⟩
      · refine ⟨[KAction.stopChannels ev.1, KAction.shutdownKernel ev.1], ?_⟩
        rw [goc_evict st sid kernelName now spawn hnew hcap ev he]
        cases spawn <;> simp [spawnNewKernel]
      · rw [goc_evict st sid kernelName now none hnew hcap ev he]
        refine ⟨by simp [spawnNewKernel], ?_⟩
        simp only [spawnNewKernel]
        simpa using lookupKey_append_new _ sid (freshInfo sid kernelName now) hrm
      · intro msg
        rw [goc_evict st sid kernelName now (some msg) hnew hcap ev he]
        refine ⟨by simp [spawnNewKernel], ?_⟩
        simp only [spawnNewKernel]
        simpa using hrm
    · refine ⟨?_, ?_, ?_⟩
      · refine ⟨[], ?_⟩
        rw [goc_room st sid kernelName now spawn hnew hcap]
        cases spawn <;> simp [spawnNewKernel]
      · rw [goc_room st sid kernelName now none hnew hcap]
        refine ⟨by simp [spawnNewKernel], ?_⟩
        simp only [spawnNewKernel]
        simpa using lookupKey_append_new _ sid (freshInfo sid kernelName now) hnew
      · intro msg
        rw [goc_room st sid kernelName now (some msg) hnew hcap]
        refine ⟨by simp [spawnNewKernel], ?_⟩
        simp only [spawnNewKernel]
        simpa using hnew

/-- C6 witness: both halves at the concrete pool — refreshing the existing
session `a`, and creating session `c` in the full pool (trace ending with
spawn, channel opening, 30-second readiness wait; admission on success;
propagated error and no admission on readiness failure). -/
theorem get_or_create_refresh_or_spawn_witness :
    (get_or_create_kernel samplePool "a" "python3" 9 none =
       (Except.ok {sampleInfo "a" 5 with last_activity := 9},
        {samplePool with kernels := updateKey samplePool.kernels "a" fun w => {w with last_activity := 9}},
        [])) ∧
    ((∃ pre, (get_or_create_kernel samplePool "c" "python3" 9 (some "boom")).2.2 =
        pre ++ [KAction.startKernel, KAction.startChannels, KAction.waitReady 30]) ∧
     ((get_or_create_kernel samplePool "c" "python3" 9 none).1 =
        Except.ok (freshInfo "c" "python3" 9) ∧
      lookupKey ((get_or_create_kernel samplePool "c" "python3" 9 none).2.1).kernels "c" =
        some (freshInfo "c" "python3" 9)) ∧
     (∀ msg, (get_or_create_kernel samplePool "c" "python3" 9 (some msg)).1 = Except.error msg ∧
        containsKey ((get_or_create_kernel samplePool "c" "python3" 9 (some msg)).2.1).kernels "c" =
          false)) :=
  ⟨get_or_create_refresh_or_spawn.1 samplePool "a" "python3" 9 none (sampleInfo "a" 5) rfl,
   get_or_create_refresh_or_spawn.2 samplePool "c" "python3" 9 (some "boom")
     (by decide) (by decide)⟩

/-- C7: when the poll deadline elapses with no matching idle status and no
matching shell reply, `execute_cell` returns the partial result aggregated
from everything that did arrive — the output text and visualizations are the
aggregation of all matching output events in arrival order, the status is
derived from the error slot and is never `timeout` — and the session
survives: it is still in the pool and the pool size is unchanged. -/
theorem poll_deadline_partial_result_session_alive
    (st : JKM) (sid code : String) (timeoutSecs now : Nat) (env : CellEnv)
    (sched : List PollEvent) (v : KernelInfo)
    (hv : lookupKey st.kernels sid = some v)
    (hexec : env.execRaise = none)
    (hterm : ∀ e ∈ sched, isTerminator e = false) :
    (execute_cell st sid code timeoutSecs now env sched).1.output =
      (aggregate_outputs (sched.filterMap collectOutput)).text.trim ∧
    (execute_cell st sid code timeoutSecs now env sched).1.visualizations =
      (aggregate_outputs (sched.filterMap collectOutput)).vis ∧
    (execute_cell st sid code timeoutSecs now env sched).1.status =
      (if (sched.foldl errStep none).isSome then Status.error else Status.success) ∧
    (execute_cell st sid code timeoutSecs now env sched).1.status ≠ Status.timeout ∧
    containsKey ((execute_cell st sid code timeoutSecs now env sched).2).kernels sid = true ∧
    ((execute_cell st sid code timeoutSecs now env sched).2).kernels.length =
      st.kernels.length := by
  have hloop := pollLoop_no_terminator sched [] none hterm
  have hgoc := goc_existing st sid "python3" now env.spawn v hv
  have hck : containsKey st.kernels sid = true := by
    rw [containsKey_eq_isSome, hv]
    rfl
  unfold execute_cell
  rw [hgoc, hexec]
  simp only [hloop, List.nil_append]
  cases herr : sched.foldl errStep none with
  | none =>
    simp [herr, containsKey_updateKey, updateKey_length, hck]
  | some eo =>
    simp [herr, containsKey_updateKey, updateKey_length, hck]

/-- C7 witness: the concrete pool, session `a`, and a schedule with two
matching stream events, a quiet tick and one non-matching idle status —
no terminating signal, so the deadline elapses. -/
theorem poll_deadline_partial_result_session_alive_witness :
    (execute_cell samplePool "a" "x = 1" 30 9 sampleEnv sampleSched).1.output =
      (aggregate_outputs (sampleSched.filterMap collectOutput)).text.trim ∧
    (execute_cell samplePool "a" "x = 1" 30 9 sampleEnv sampleSched).1.visualizations =
      (aggregate_outputs (sampleSched.filterMap collectOutput)).vis ∧
    (execute_cell samplePool "a" "x = 1" 30 9 sampleEnv sampleSched).1.status =
      (if (sampleSched.foldl errStep none).isSome then Status.error else Status.success) ∧
    (execute_cell samplePool "a" "x = 1" 30 9 sampleEnv sampleSched).1.status ≠ Status.timeout ∧
    containsKey ((execute_cell samplePool "a" "x = 1" 30 9 sampleEnv sampleSched).2).kernels "a" =
      true ∧
    ((execute_cell samplePool "a" "x = 1" 30 9 sampleEnv sampleSched).2).kernels.length =
      samplePool.kernels.length :=
  poll_deadline_partial_result_session_alive samplePool "a" "x = 1" 30 9 sampleEnv sampleSched
    (sampleInfo "a" 5) rfl rfl (by decide)

/-- C8: the Output Aggregator is a pure function of the collected event
sequence — the aggregated stdout text is exactly the ordered concatenation of
every event's stream contribution (so arrival order is preserved), and equal
event sequences aggregate to bit-identical results. -/
theorem aggregator_deterministic_and_ordered :
    (∀ outs : List OutputItem,
       (aggregate_outputs outs).text = concatAll (outs.map streamText)) ∧
    (∀ xs ys : List OutputItem, xs = ys → aggregate_outputs xs = aggregate_outputs ys) := by
  constructor
  · intro outs
    have h := aggFold_text outs ⟨"", [], none, none⟩
    simpa [aggregate_outputs] using h
  · intro xs ys h
    rw [h]

/-- C8 witness: the ordered-concatenation equation and idempotence at a
concrete event sequence. -/
theorem aggregator_deterministic_and_ordered_witness :
    (aggregate_outputs [OutputItem.stream "stdout" "a", OutputItem.stream "stdout" "b"]).text =
      concatAll ([OutputItem.stream "stdout" "a", OutputItem.stream "stdout" "b"].map
        streamText) ∧
    aggregate_outputs [OutputItem.stream "stdout" "a"] =
      aggregate_outputs [OutputItem.stream "stdout" "a"] :=
  ⟨aggregator_deterministic_and_ordered.1 _,
   aggregator_deterministic_and_ordered.2 _ _ rfl⟩

/-- C9: the deny-list matching is case-insensitive and unanchored by word
boundaries, so `import oscillator` — whose module name merely begins with the
denied name `os` and which uses no denied primitive — is blocked by the first
deny-list pattern, as is its upper-case variant, while the module name alone
passes the filter. -/
theorem denylist_blocks_module_name_prefixes :
    check_security ("import oscillator".toList) =
      Except.error
        "Código bloqueado: patrón peligroso detectado - import\\s+(os|sys|subprocess|socket|urllib|requests)" ∧
    check_security ("IMPORT Oscillator".toList) =
      Except.error
        "Código bloqueado: patrón peligroso detectado - import\\s+(os|sys|subprocess|socket|urllib|requests)" ∧
    check_security ("oscillator".toList) = Except.ok [] :=
  ⟨rfl, rfl, rfl⟩

/-- C10: when submitting the code to an already obtained kernel raises an
internal exception, the error result reports `execution_count = 0` while the
session's stored counter was already incremented for that submission, so the
reported count always differs from the stored one. -/
theorem failed_cell_execution_count_mismatch
    (st : JKM) (sid code : String) (timeoutSecs now : Nat) (env : CellEnv)
    (sched : List PollEvent) (v : KernelInfo) (msg : String)
    (hv : lookupKey st.kernels sid = some v)
    (hraise : env.execRaise = some msg) :
    (execute_cell st sid code timeoutSecs now env sched).1 = internalKernelError msg ∧
    (execute_cell st sid code timeoutSecs now env sched).1.execution_count = 0 ∧
    lookupKey ((execute_cell st sid code timeoutSecs now env sched).2).kernels sid =
      some {v with last_activity := now, execution_count := v.execution_count + 1} ∧
    (execute_cell st sid code timeoutSecs now env sched).1.execution_count ≠
      v.execution_count + 1 := by
  have hgoc := goc_existing st sid "python3" now env.spawn v hv
  have hlk1 : lookupKey (updateKey st.kernels sid fun w => {w with last_activity := now}) sid =
      some {v with last_activity := now} :=
    lookupKey_updateKey_self st.kernels sid _ v hv
  unfold execute_cell
  rw [hgoc, hraise]
  refine ⟨rfl, rfl, ?_, by simp [internalKernelError]⟩
  have hlk2 := lookupKey_updateKey_self
    (updateKey st.kernels sid fun w => {w with last_activity := now}) sid
    (fun w => {w with last_activity := now, execution_count := w.execution_count + 1})
    {v with last_activity := now} hlk1
  simpa using hlk2

/-- C10 witness: session `a` of the concrete pool (stored count 0), with the
channel submission raising; the result reports count 0 while the stored
counter is 1. -/
theorem failed_cell_execution_count_mismatch_witness :
    (execute_cell samplePool "a" "x = 1" 30 9 sampleRaiseEnv []).1 =
      internalKernelError "channel dead" ∧
    (execute_cell samplePool "a" "x = 1" 30 9 sampleRaiseEnv []).1.execution_count = 0 ∧
    lookupKey ((execute_cell samplePool "a" "x = 1" 30 9 sampleRaiseEnv []).2).kernels "a" =
      some {sampleInfo "a" 5 with
              last_activity := 9
              execution_count := (sampleInfo "a" 5).execution_count + 1} ∧
    (execute_cell samplePool "a" "x = 1" 30 9 sampleRaiseEnv []).1.execution_count ≠
      (sampleInfo "a" 5).execution_count + 1 :=
  failed_cell_execution_count_mismatch samplePool "a" "x = 1" 30 9 sampleRaiseEnv []
    (sampleInfo "a" 5) "channel dead" rfl rfl

end RepletO
